import Mathlib

/-!
Verification of the matching, scoring and counterfactual engine of the
CareerFavor repository (backend/app/adk_agent/agent.py).

The Python functions are shallowly embedded as total Lean functions:

- Python float arithmetic is modelled by exact rational arithmetic (ℚ);
  the builtin round(x, d) is modelled by roundTo d, rounding half upwards.
- Python strings are Lean strings; str.lower, str.strip, str.startswith and
  slicing are modelled by structurally recursive functions over the
  character list, so that every definition evaluates inside the kernel.
- A value that may be absent (a missing dict key, or None) is an Option;
  Python truthiness of such optional strings is pyTruthy.
- The two polymorphic inputs of build_cv_jd_match (raw text or structured
  indicator dicts) are the two constructors of PyInput.
- The match_report dict handed to generate_counterfactuals and
  validate_and_rank_counterfactuals may lack keys; it is modelled by
  ReportDict whose fields are Options.
- Functions that return an explicit error dict are modelled with Except.
-/

namespace CareerFavor

/-- Model of the Python str.lower method (ASCII case folding). -/
def pyLower (s : String) : String := ⟨s.data.map Char.toLower⟩

/-- Model of the Python str.strip method: drop whitespace on both ends. -/
def pyStrip (s : String) : String :=
  ⟨((s.data.dropWhile Char.isWhitespace).reverse.dropWhile Char.isWhitespace).reverse⟩

/-- Model of Python str(x) for an optional string value: None prints as the
four letter string None. -/
def pyStr : Option String → String
  | none => "None"
  | some s => s

/-- Python truthiness of an optional string: None and the empty string are
falsy, every other string is truthy. -/
def pyTruthy : Option String → Bool
  | none => false
  | some s => !s.isEmpty

/-- Structural prefix test on character lists. -/
def startsWithChars : List Char → List Char → Bool
  | [], _ => true
  | _ :: _, [] => false
  | c :: cs, d :: ds => c == d && startsWithChars cs ds

/-- Model of the Python str.startswith method. -/
def pyStartsWith (s pre : String) : Bool := startsWithChars pre.data s.data

/-- Model of the Python slice s[n:] (used for name.split with maxsplit 1,
which for names starting with the five character tag lang: is the part
after the first colon). -/
def pyDrop (s : String) (n : Nat) : String := ⟨s.data.drop n⟩

/-- A single quote character, used inside evidence and template strings. -/
def sq : String := (Char.ofNat 39).toString

/-- Model of the Python separator.join call with a comma separator. -/
def joinComma (l : List String) : String := String.intercalate ", " l

/-- Model of the Python repr of a list of strings, as interpolated into an
f-string. -/
def pyListRepr (l : List String) : String :=
  "[" ++ String.intercalate ", " (l.map (fun s => sq ++ s ++ sq)) ++ "]"

/-- Model of the Python builtin round(x, d) on exact rationals: round
x times ten to the d to the nearest integer (halves upwards), then scale
back. -/
def roundTo (d : Nat) (x : ℚ) : ℚ := ((round (x * 10 ^ d) : ℤ) : ℚ) / 10 ^ d

/-- Value of a digit character. -/
def digitVal (c : Char) : Nat := c.toNat - 48

/-- Numeric value of a list of digit characters, most significant first. -/
def natOfDigits (ds : List Char) : Nat := ds.foldl (fun n c => 10 * n + digitVal c) 0

/-- Split off the maximal leading run of digit characters. -/
def takeDigits : List Char → List Char × List Char
  | [] => ([], [])
  | c :: cs =>
    if c.isDigit then
      let p := takeDigits cs
      (c :: p.1, p.2)
    else ([], c :: cs)

/-- First match of the regular expression for a decimal number (digits with
an optional dot and further digits) in a character list, as an exact
rational; none when no digit occurs. -/
def firstNumber : List Char → Option ℚ
  | [] => none
  | c :: cs =>
    if c.isDigit then
      let p := takeDigits (c :: cs)
      match p.2 with
      | '.' :: r2 =>
        let q := takeDigits r2
        if q.1.isEmpty then some (natOfDigits p.1)
        else some ((natOfDigits p.1 : ℚ) + (natOfDigits q.1 : ℚ) / 10 ^ q.1.length)
      | _ => some (natOfDigits p.1)
    else firstNumber cs

/-- Model of parse_years in agent.py: stringify, lower, and extract the
first decimal number, if any. -/
def parse_years (text : Option String) : Option ℚ := firstNumber (pyLower (pyStr text)).data

/-- RequirementIndicators: the structured indicator dict produced by the
extractor agents for a job description or a candidate CV. A missing key is
the empty list, or none for the two scalar fields. -/
structure Indicators where
  must_have : List String
  nice_to_have : List String
  years_experience : Option String
  education_level : Option String
  languages : List String
deriving DecidableEq

/-- An Indicators value with every field empty or absent. -/
def emptyIndicators : Indicators := ⟨[], [], none, none, []⟩

/-- One weighted requirement entry of the normalized requirement list. -/
structure WeightedReq where
  name : String
  weight : ℚ
  must_have : Bool
deriving DecidableEq

/-- One per requirement match outcome. -/
structure MatchResult where
  requirement : String
  weight : ℚ
  must_have : Bool
  matched : Bool
  evidence : Option String
deriving DecidableEq

/-- One evidence mention entry. -/
structure Mention where
  name : String
  context : String
deriving DecidableEq

/-- The dict returned by build_cv_jd_match. -/
structure MatchReport where
  jd_requirements : List WeightedReq
  cv_mentions : List Mention
  match_results : List MatchResult
  raw_score : ℚ
  ats_score_suggestion : ℚ
deriving DecidableEq

/-- The two runtime shapes build_cv_jd_match accepts for each argument:
raw text, or a structured indicator dict. -/
inductive PyInput where
  | str (s : String)
  | dict (d : Indicators)
deriving DecidableEq

/-- The raw weighted requirement list built from the job indicators in
build_cv_jd_match, before weight normalization: must haves with weight 2,
nice to haves with weight 1, languages (namespaced lang:) with weight 1/2,
then a years_experience entry with weight 1 and an education_level entry
with weight 4/5 when those job fields are truthy. -/
def rawRequirements (jd_skills : Indicators) : List WeightedReq :=
  (jd_skills.must_have.map pyLower).map (fun n => ⟨n, 2, true⟩)
    ++ (jd_skills.nice_to_have.map pyLower).map (fun n => ⟨n, 1, false⟩)
    ++ (jd_skills.languages.map pyLower).map (fun n => ⟨"lang:" ++ n, 1/2, false⟩)
    ++ (if pyTruthy jd_skills.years_experience then [⟨"years_experience", 1, false⟩] else [])
    ++ (if pyTruthy jd_skills.education_level then [⟨"education_level", 4/5, false⟩] else [])

/-- The raw total weight, replaced by 1 when it is 0 (the Python
expression sum or 1.0). -/
def totalWeight (reqs : List WeightedReq) : ℚ :=
  if (reqs.map (fun r => r.weight)).sum = 0 then 1 else (reqs.map (fun r => r.weight)).sum

/-- The normalized requirement list: each raw weight divided by the raw
total and rounded to 6 decimal places. -/
def normalizedRequirements (jd_skills : Indicators) : List WeightedReq :=
  (rawRequirements jd_skills).map
    (fun r => ⟨r.name, roundTo 6 (r.weight / totalWeight (rawRequirements jd_skills)), r.must_have⟩)

/-- The per requirement loop body of build_cv_jd_match: decide whether one
normalized requirement is matched by the candidate indicators and build
its MatchResult including the evidence string. -/
def evalRequirement (jd_skills cv_skills : Indicators) (req : WeightedReq) : MatchResult :=
  if pyStartsWith req.name "lang:" then
    let lang := pyDrop req.name 5
    let matched := (cv_skills.languages.map pyLower).contains lang
    ⟨req.name, req.weight, req.must_have, matched,
      if matched then some ("language " ++ sq ++ lang ++ sq ++ " present in CV") else none⟩
  else if req.name = "years_experience" then
    let jd_y := parse_years jd_skills.years_experience
    let cv_y := parse_years cv_skills.years_experience
    let matched : Bool :=
      match jd_y, cv_y with
      | none, _ => true
      | some j, some c => decide (j ≤ c)
      | some _, none => false
    ⟨req.name, req.weight, req.must_have, matched,
      match jd_y, cv_y with
      | some j, some c =>
        if matched then
          some ("CV years " ++ toString c ++ " >= JD years " ++ toString j)
        else none
      | _, _ => none⟩
  else if req.name = "education_level" then
    let matched : Bool :=
      !pyTruthy jd_skills.education_level
        || (pyLower (pyStrip (pyStr cv_skills.education_level))
              == pyLower (pyStrip (pyStr jd_skills.education_level)))
    ⟨req.name, req.weight, req.must_have, matched,
      if matched && pyTruthy jd_skills.education_level then
        some ("education " ++ sq ++ pyStr cv_skills.education_level ++ sq ++ " matches JD")
      else none⟩
  else
    let matched := ((cv_skills.must_have.map pyLower) ++ (cv_skills.nice_to_have.map pyLower)).contains req.name
    ⟨req.name, req.weight, req.must_have, matched,
      if matched then some ("skill " ++ sq ++ req.name ++ sq ++ " present in CV indicators") else none⟩

/-- The structured indicators path of build_cv_jd_match. -/
def buildStructured (cv_skills jd_skills : Indicators) : MatchReport :=
  let jd_requirements := normalizedRequirements jd_skills
  let match_results := jd_requirements.map (evalRequirement jd_skills cv_skills)
  let cv_mentions := match_results.filterMap
    (fun r =>
      match r.evidence with
      | some e => if r.matched && !e.isEmpty then some ⟨r.requirement, e⟩ else none
      | none => none)
  let raw_score := roundTo 4 (((match_results.filter (fun r => r.matched)).map (fun r => r.weight)).sum)
  ⟨jd_requirements, cv_mentions, match_results, raw_score, roundTo 2 (raw_score * 100)⟩

/-- build_cv_jd_match from agent.py: the structured path when both inputs
are indicator dicts, and otherwise the empty match report (the legacy raw
text fallback was removed from the source and replaced by this stub). -/
def build_cv_jd_match : PyInput → PyInput → MatchReport
  | .dict cv_skills, .dict jd_skills => buildStructured cv_skills jd_skills
  | .dict _, .str _ => ⟨[], [], [], 0, 0⟩
  | .str _, .dict _ => ⟨[], [], [], 0, 0⟩
  | .str _, .str _ => ⟨[], [], [], 0, 0⟩

/-- The indicator_match helper of compute_relevant_score, at a scalar
(optional string) indicator: 1 when the job value is falsy, else 1 exactly
when the candidate value equals the job value. -/
def indicatorMatchScalar (jd_value cv_value : Option String) : ℚ :=
  if !pyTruthy jd_value then 1
  else if pyTruthy jd_value && jd_value == cv_value then 1 else 0

/-- The indicator_match helper of compute_relevant_score, at a list valued
indicator: 1 when the job list is empty or every job item occurs in the
candidate list. -/
def indicatorMatchList (jd_value cv_value : List String) : ℚ :=
  if jd_value.isEmpty then 1
  else if jd_value.all (fun item => cv_value.contains item) then 1 else 0

/-- The dict returned by compute_relevant_score. -/
structure RelevanceScore where
  s_must : ℚ
  s_nice : ℚ
  s_skills : ℚ
  s_experience : ℚ
  s_education : ℚ
  s_languages : ℚ
  score : ℚ
deriving DecidableEq

/-- compute_relevant_score from agent.py. The skills sub scores divide the
plain lengths of the candidate lists by the lengths of the job lists (the
candidate dict is produced upstream as the satisfied subset of the job
dict, and is not intersected with the job lists here). -/
def compute_relevant_score (jd cv : Indicators) : RelevanceScore :=
  let s_must : ℚ := if 0 < jd.must_have.length then (cv.must_have.length : ℚ) / (jd.must_have.length : ℚ) else 0
  let s_nice : ℚ := if 0 < jd.nice_to_have.length then (cv.nice_to_have.length : ℚ) / (jd.nice_to_have.length : ℚ) else 0
  let s_skills := (3 * s_must + 1 * s_nice) / 4
  let s_experience := indicatorMatchScalar jd.years_experience cv.years_experience
  let s_education := indicatorMatchScalar jd.education_level cv.education_level
  let s_lang := indicatorMatchList jd.languages cv.languages
  let score := 0.6 * s_skills + 0.2 * s_experience + 0.15 * s_lang + 0.05 * s_education
  ⟨roundTo 4 s_must, roundTo 4 s_nice, roundTo 4 s_skills, s_experience, s_education, s_lang,
    roundTo 4 score⟩

/-- The possibly incomplete match_report dict passed to the counterfactual
tools; a missing key is none. A report where every field is none also
covers a None or empty dict argument. -/
structure ReportDict where
  match_results : Option (List MatchResult)
  raw_score : Option ℚ
  jd_requirements : Option (List WeightedReq)
deriving DecidableEq

/-- The ReportDict holding the fields of a full MatchReport. -/
def MatchReport.toReportDict (m : MatchReport) : ReportDict :=
  ⟨some m.match_results, some m.raw_score, some m.jd_requirements⟩

/-- Insert one element into a list so that elements with a strictly larger
key stay in front; together with sortDescBy this models the stable Python
sorted call with a key and reverse set. -/
def orderedInsertDescBy {α : Type} (key : α → ℚ) (a : α) : List α → List α
  | [] => [a]
  | b :: l => if key b ≤ key a then a :: b :: l else b :: orderedInsertDescBy key a l

/-- Stable descending sort by a rational key: the model of the Python
sorted call with reverse equal to true, which keeps the original relative
order of elements with equal keys. -/
def sortDescBy {α : Type} (key : α → ℚ) : List α → List α
  | [] => []
  | a :: l => orderedInsertDescBy key a (sortDescBy key l)

/-- One proposed counterfactual change. -/
structure Counterfactual where
  requirement : String
  suggested_change : String
deriving DecidableEq

/-- The dict returned by generate_counterfactuals on success. -/
structure CfBundle where
  counterfactuals : List Counterfactual
  contrastive_explanations : List String
  decision_path : List String
deriving DecidableEq

/-- The remediation template used for a missing must have requirement. -/
def mustTemplate (req_name : String) : String :=
  "Add explicit bullet describing " ++ req_name ++ " experience (e.g. "
    ++ sq ++ "Designed and maintained " ++ req_name
    ++ " pipelines for X months/years, including ..." ++ sq ++ ")."

/-- The remediation template used for a missing optional requirement. -/
def niceTemplate (req_name : String) : String :=
  "Mention relevant experience or project with " ++ req_name ++ " (e.g. "
    ++ sq ++ "Implemented " ++ req_name ++ " in project Y to achieve Z" ++ sq ++ ")."

/-- generate_counterfactuals from agent.py: an explicit error value when
the report argument is falsy or lacks the match_results key, otherwise the
top_k missing requirements by weight with template remediations,
contrastive explanations and a decision path. -/
def generate_counterfactuals (match_report : ReportDict) (top_k : Nat) : Except String CfBundle :=
  match match_report.match_results with
  | none => .error "No match_report provided or bad format."
  | some match_results =>
    let missing := match_results.filter (fun r => !r.matched)
    let missing_sorted := sortDescBy (fun r => r.weight) missing
    let counterfactuals := (missing_sorted.take top_k).map
      (fun req =>
        if req.must_have then (⟨req.requirement, mustTemplate req.requirement⟩ : Counterfactual)
        else ⟨req.requirement, niceTemplate req.requirement⟩)
    let strengths := (match_results.filter (fun r => r.matched)).map (fun r => r.requirement)
    let weaknesses := (match_results.filter (fun r => !r.matched)).map (fun r => r.requirement)
    let contrastive_explanations :=
      (if 0 < strengths.length then
        ["The CV is preferred because it covers key requirements: "
          ++ joinComma (strengths.take 5) ++ "."]
       else [])
      ++ (if 0 < weaknesses.length then
        ["However, it lacks: " ++ joinComma (weaknesses.take 5) ++ ", which limits a full match."]
       else [])
    let decision_path :=
      ["Step 1: build_cv_jd_match produced matched/missing per requirement.",
       "Step 2: Identified top missing requirements by impact: "
         ++ pyListRepr ((missing_sorted.take top_k).map (fun r => r.requirement)) ++ ".",
       "Step 3: Proposed minimal, template-based changes and estimated score deltas."]
    .ok ⟨counterfactuals, contrastive_explanations, decision_path⟩

/-- apply_counterfactual_to_cv from agent.py: append a bullet mentioning
the requirement to the CV text. -/
def apply_counterfactual_to_cv (cv : String) (requirement_name : String) : String :=
  cv ++ "\n- Experience with " ++ requirement_name

/-- A counterfactual enriched by the validation loop. -/
structure ValidatedCf where
  requirement : String
  suggested_change : String
  actual_delta_raw : ℚ
  actual_delta_pct : ℚ
  effort_cost : ℚ
  impact_ratio : ℚ
  validated_with_new_raw : ℚ
deriving DecidableEq

/-- The dict returned by validate_and_rank_counterfactuals on success. -/
structure ValidatedBundle where
  validated_counterfactuals : List ValidatedCf
  expanded_contrastive_explanations : List String
  per_counterfactual_explanations : List String
deriving DecidableEq

/-- The per counterfactual enrichment step of
validate_and_rank_counterfactuals: apply the counterfactual to the CV
text, re run build_cv_jd_match on the two raw strings, and compute the
deltas, the effort cost and the impact ratio. -/
def enrichCounterfactual (match_report : ReportDict) (cv jd : String) (cf : Counterfactual) :
    ValidatedCf :=
  let req_name := cf.requirement
  let new_cv := apply_counterfactual_to_cv cv req_name
  let new_match := build_cv_jd_match (.str new_cv) (.str jd)
  let new_raw := new_match.raw_score
  let old_raw := match_report.raw_score.getD 0
  let actual_delta_raw := roundTo 4 (new_raw - old_raw)
  let actual_delta_pct := roundTo 2 ((new_raw - old_raw) * 100)
  let matched_entry := (match_report.match_results.getD []).find?
    (fun r => r.requirement == req_name)
  let must_flag := (matched_entry.map (fun r => r.must_have)).getD false
  let effort_cost : ℚ := if must_flag then 1 else 1/2
  let impact_ratio := roundTo 4 (if 0 < effort_cost then actual_delta_pct / effort_cost else 0)
  ⟨req_name, cf.suggested_change, actual_delta_raw, actual_delta_pct, effort_cost,
    impact_ratio, new_raw⟩

/-- validate_and_rank_counterfactuals from agent.py: generate the
counterfactuals, enrich each one by simulating it on the CV text and re
matching, and sort the result descending by impact ratio with the stable
sort of Python. -/
def validate_and_rank_counterfactuals (match_report : ReportDict) (cv jd : String)
    (top_k : Nat) : Except String ValidatedBundle :=
  match generate_counterfactuals match_report top_k with
  | .error _ => .error "No predicted counterfactuals available."
  | .ok predicted =>
    let validated := predicted.counterfactuals.map (enrichCounterfactual match_report cv jd)
    let validated_sorted := sortDescBy (fun c => c.impact_ratio) validated
    let strengths := ((match_report.match_results.getD []).filter (fun r => r.matched)).map
      (fun r => r.requirement)
    let weaknesses := ((match_report.match_results.getD []).filter (fun r => !r.matched)).map
      (fun r => r.requirement)
    let expanded :=
      (if 0 < strengths.length then
        ["Positive: Candidate covers " ++ joinComma strengths
          ++ " — these are the reasons for the current match."]
       else [])
      ++ (if 0 < weaknesses.length then
        ["Negative: Candidate lacks " ++ joinComma weaknesses
          ++ " — adding these would most improve the match."]
       else [])
    let per_cf := validated_sorted.map
      (fun c => "If candidate adds " ++ sq ++ c.requirement ++ sq ++ ", actual +"
        ++ toString c.actual_delta_pct ++ " (pct). Impact ratio "
        ++ toString c.impact_ratio ++ ".")
    .ok ⟨validated_sorted, expanded, per_cf⟩

/-- Modelled from the words of the spec, for comparison in claim C3 only:
the fraction of the entries of the job list that are present in the
candidate list (0 when the job list is empty). This is NOT the source
formula. -/
def specFractionPresent (job cand : List String) : ℚ :=
  if job.isEmpty then 0
  else ((job.filter (fun x => cand.contains x)).length : ℚ) / (job.length : ℚ)

/-- Whether an Except value is a success value. -/
def exOk {ε α : Type} : Except ε α → Bool
  | .ok _ => true
  | .error _ => false

/-! Helper lemmas about the rounding model. -/

lemma roundTo_eq_of (d : Nat) (x : ℚ) (n : ℤ) (h1 : (n : ℚ) ≤ x * 10 ^ d + 1/2)
    (h2 : x * 10 ^ d + 1/2 < n + 1) : roundTo d x = (n : ℚ) / 10 ^ d := by
  have hfl : ⌊x * 10 ^ d + 1/2⌋ = n := by
    rw [Int.floor_eq_iff]
    exact ⟨h1, by linarith⟩
  have hr : round (x * 10 ^ d) = n := by rw [round_eq, hfl]
  rw [roundTo, hr]

lemma roundTo_zero (d : Nat) : roundTo d 0 = 0 := by
  have : roundTo d 0 = ((0 : ℤ) : ℚ) / 10 ^ d := roundTo_eq_of d 0 0 (by norm_num) (by norm_num)
  simpa using this

lemma roundTo_nonneg (d : Nat) {x : ℚ} (hx : 0 ≤ x) : 0 ≤ roundTo d x := by
  have h10 : (0:ℚ) < 10 ^ d := by positivity
  have h : (0:ℤ) ≤ round (x * 10 ^ d) := by
    rw [round_eq]
    refine Int.le_floor.mpr ?_
    positivity
  rw [roundTo]
  have : (0:ℚ) ≤ ((round (x * 10 ^ d) : ℤ) : ℚ) := by exact_mod_cast h
  exact div_nonneg this (le_of_lt h10)

lemma roundTo_le_one (d : Nat) {x : ℚ} (hx : x ≤ 1) : roundTo d x ≤ 1 := by
  have h10 : (0:ℚ) < 10 ^ d := by positivity
  have hb : x * 10 ^ d + 1/2 < ((10 ^ d + 1 : ℤ) : ℚ) := by push_cast; nlinarith
  have h : round (x * 10 ^ d) ≤ (10 ^ d : ℤ) := by
    rw [round_eq]
    exact Int.lt_add_one_iff.mp (Int.floor_lt.mpr hb)
  rw [roundTo, div_le_one h10]
  exact_mod_cast h

lemma abs_roundTo_sub (d : Nat) (x : ℚ) : |roundTo d x - x| ≤ 1 / (2 * 10 ^ d) := by
  have h10 : (0:ℚ) < 10 ^ d := by positivity
  have h := abs_sub_round (x * 10 ^ d)
  rw [abs_sub_comm] at h
  have key : roundTo d x - x = (((round (x * 10 ^ d) : ℤ) : ℚ) - x * 10 ^ d) / 10 ^ d := by
    rw [roundTo]; field_simp; ring
  rw [key, abs_div, abs_of_pos h10]
  have hrw : (1:ℚ) / (2 * 10 ^ d) = (1/2) / 10 ^ d := by ring
  rw [hrw]
  exact div_le_div_of_nonneg_right h h10.le

lemma roundTo_le_add_half (d : Nat) (x : ℚ) : roundTo d x ≤ x + 1 / (2 * 10 ^ d) := by
  have h := abs_roundTo_sub d x
  have := (abs_le.mp h).2
  linarith

lemma roundTo4_le_one_of_lt {x : ℚ} (hx : x < 1 + 1/20000) : roundTo 4 x ≤ 1 := by
  have hb : x * 10 ^ 4 + 1/2 < ((10 ^ 4 + 1 : ℤ) : ℚ) := by push_cast; nlinarith
  have h : round (x * 10 ^ 4) ≤ (10 ^ 4 : ℤ) := by
    rw [round_eq]
    exact Int.lt_add_one_iff.mp (Int.floor_lt.mpr hb)
  rw [roundTo, div_le_one (by norm_num)]
  exact_mod_cast h

/-! Helper lemmas about list sums. -/

lemma sum_map_filter_le {α : Type} (l : List α) (p : α → Bool) (f : α → ℚ)
    (h : ∀ a ∈ l, 0 ≤ f a) : ((l.filter p).map f).sum ≤ (l.map f).sum := by
  induction l with
  | nil => simp
  | cons a l ih =>
    have ha := h a (by simp)
    have ih2 := ih (fun b hb => h b (by simp [hb]))
    by_cases hp : p a
    · simp only [List.filter_cons, hp, if_true, List.map_cons, List.sum_cons]
      linarith
    · simp only [List.filter_cons, hp, Bool.false_eq_true, if_false, List.map_cons, List.sum_cons]
      linarith

lemma sum_map_div {α : Type} (l : List α) (f : α → ℚ) (c : ℚ) :
    (l.map (fun a => f a / c)).sum = (l.map f).sum / c := by
  induction l with
  | nil => simp
  | cons a l ih => simp [ih, add_div]

lemma sum_map_add_const {α : Type} (l : List α) (f : α → ℚ) (c : ℚ) :
    (l.map (fun a => f a + c)).sum = (l.map f).sum + l.length * c := by
  induction l with
  | nil => simp
  | cons a l ih =>
    simp only [List.map_cons, List.sum_cons, ih, List.length_cons]
    push_cast
    ring

lemma sum_map_const_q {α : Type} (l : List α) (c : ℚ) :
    (l.map (fun _ => c)).sum = l.length * c := by
  induction l with
  | nil => simp
  | cons a l ih =>
    simp only [List.map_cons, List.sum_cons, ih, List.length_cons]
    push_cast
    ring

lemma sum_map_sub_q {α : Type} (l : List α) (f g : α → ℚ) :
    (l.map (fun a => f a - g a)).sum = (l.map f).sum - (l.map g).sum := by
  induction l with
  | nil => simp
  | cons a l ih =>
    simp only [List.map_cons, List.sum_cons, ih]
    ring

lemma abs_sum_map_le {α : Type} (l : List α) (f : α → ℚ) :
    |(l.map f).sum| ≤ (l.map (fun a => |f a|)).sum := by
  induction l with
  | nil => simp
  | cons a l ih =>
    simp only [List.map_cons, List.sum_cons]
    exact le_trans (abs_add _ _) (by linarith)

/-! Helper lemmas about the stable descending sort. -/

lemma mem_orderedInsertDescBy {α : Type} (key : α → ℚ) (a : α) (l : List α) (x : α) :
    x ∈ orderedInsertDescBy key a l ↔ x = a ∨ x ∈ l := by
  induction l with
  | nil => simp [orderedInsertDescBy]
  | cons b l ih =>
    by_cases h : key b ≤ key a
    · simp [orderedInsertDescBy, h]
    · simp only [orderedInsertDescBy, h, if_false, List.mem_cons, ih]
      tauto

lemma pairwise_orderedInsertDescBy {α : Type} (key : α → ℚ) (a : α) (l : List α)
    (h : l.Pairwise (fun x y => key y ≤ key x)) :
    (orderedInsertDescBy key a l).Pairwise (fun x y => key y ≤ key x) := by
  induction l with
  | nil => simp [orderedInsertDescBy]
  | cons b l ih =>
    rw [List.pairwise_cons] at h
    obtain ⟨hb, hl⟩ := h
    by_cases hba : key b ≤ key a
    · rw [orderedInsertDescBy, if_pos hba, List.pairwise_cons]
      refine ⟨?_, by rw [List.pairwise_cons]; exact ⟨hb, hl⟩⟩
      intro x hx
      rcases List.mem_cons.mp hx with rfl | hx
      · exact hba
      · exact le_trans (hb x hx) hba
    · rw [orderedInsertDescBy, if_neg hba, List.pairwise_cons]
      refine ⟨?_, ih hl⟩
      intro x hx
      rcases (mem_orderedInsertDescBy key a l x).mp hx with rfl | hx
      · exact le_of_lt (lt_of_not_le hba)
      · exact hb x hx

lemma sortDescBy_pairwise {α : Type} (key : α → ℚ) (l : List α) :
    (sortDescBy key l).Pairwise (fun x y => key y ≤ key x) := by
  induction l with
  | nil => simp [sortDescBy]
  | cons a l ih => exact pairwise_orderedInsertDescBy key a _ ih

lemma filter_orderedInsertDescBy {α : Type} (key : α → ℚ) (a : α) (l : List α) (v : ℚ) :
    (orderedInsertDescBy key a l).filter (fun x => key x == v)
      = if key a = v then a :: l.filter (fun x => key x == v)
        else l.filter (fun x => key x == v) := by
  induction l with
  | nil =>
    by_cases hv : key a = v <;> simp [orderedInsertDescBy, List.filter_cons, hv]
  | cons b l ih =>
    by_cases hba : key b ≤ key a
    · rw [orderedInsertDescBy, if_pos hba]
      by_cases hv : key a = v <;> by_cases hbv : key b = v <;>
        simp [List.filter_cons, hv, hbv]
    · rw [orderedInsertDescBy, if_neg hba]
      simp only [List.filter_cons, ih]
      by_cases hv : key a = v
      · have hbv : ¬ (key b = v) := by
          intro hbv
          exact hba (le_of_eq (hv ▸ hbv))
        simp [hv, hbv]
      · simp [hv]

lemma filter_sortDescBy {α : Type} (key : α → ℚ) (v : ℚ) (l : List α) :
    (sortDescBy key l).filter (fun x => key x == v) = l.filter (fun x => key x == v) := by
  induction l with
  | nil => rfl
  | cons a l ih =>
    rw [sortDescBy, filter_orderedInsertDescBy, ih]
    by_cases hv : key a = v <;> simp [List.filter_cons, hv]

/-! Lemmas about the requirement weights of build_cv_jd_match. -/

lemma evalRequirement_weight (jd cv : Indicators) (req : WeightedReq) :
    (evalRequirement jd cv req).weight = req.weight := by
  unfold evalRequirement
  split_ifs <;> rfl

lemma evalRequirement_requirement (jd cv : Indicators) (req : WeightedReq) :
    (evalRequirement jd cv req).requirement = req.name := by
  unfold evalRequirement
  split_ifs <;> rfl

lemma rawRequirements_weight_pos (jd : Indicators) :
    ∀ r ∈ rawRequirements jd, 0 < r.weight := by
  intro r hr
  simp only [rawRequirements, List.mem_append] at hr
  rcases hr with ((((h | h) | h) | h) | h)
  · obtain ⟨n, _, rfl⟩ := List.mem_map.mp h; norm_num
  · obtain ⟨n, _, rfl⟩ := List.mem_map.mp h; norm_num
  · obtain ⟨n, _, rfl⟩ := List.mem_map.mp h; norm_num
  · split at h
    · rw [List.mem_singleton] at h; subst h; norm_num
    · simp at h
  · split at h
    · rw [List.mem_singleton] at h; subst h; norm_num
    · simp at h

lemma totalWeight_pos (jd : Indicators) : 0 < totalWeight (rawRequirements jd) := by
  unfold totalWeight
  split
  · norm_num
  · rename_i hs
    have hnn : 0 ≤ ((rawRequirements jd).map (fun r => r.weight)).sum := by
      apply List.sum_nonneg
      intro x hx
      obtain ⟨r, hr, rfl⟩ := List.mem_map.mp hx
      exact (rawRequirements_weight_pos jd r hr).le
    exact lt_of_le_of_ne hnn (Ne.symm hs)

lemma totalWeight_sum_div_le_one (jd : Indicators) :
    ((rawRequirements jd).map (fun r => r.weight)).sum / totalWeight (rawRequirements jd) ≤ 1 := by
  unfold totalWeight
  split
  · rename_i hs; rw [hs]; norm_num
  · rename_i hs; rw [div_self hs]

lemma normalizedRequirements_weights (jd : Indicators) :
    (normalizedRequirements jd).map (fun r => r.weight)
      = (rawRequirements jd).map
          (fun r => roundTo 6 (r.weight / totalWeight (rawRequirements jd))) := by
  rw [normalizedRequirements, List.map_map]
  rfl

lemma normalizedRequirements_weight_nonneg (jd : Indicators) :
    ∀ q ∈ normalizedRequirements jd, 0 ≤ q.weight := by
  intro q hq
  simp only [normalizedRequirements, List.mem_map] at hq
  obtain ⟨r, hr, rfl⟩ := hq
  exact roundTo_nonneg 6 (div_nonneg (rawRequirements_weight_pos jd r hr).le (totalWeight_pos jd).le)

lemma normalized_sum_le (jd : Indicators) :
    ((normalizedRequirements jd).map (fun r => r.weight)).sum
      ≤ 1 + ((rawRequirements jd).length : ℚ) * (1/2000000) := by
  rw [normalizedRequirements_weights]
  have h1 : ((rawRequirements jd).map
        (fun r => roundTo 6 (r.weight / totalWeight (rawRequirements jd)))).sum
      ≤ ((rawRequirements jd).map
        (fun r => r.weight / totalWeight (rawRequirements jd) + 1/2000000)).sum := by
    apply List.sum_le_sum
    intro r _
    have h := roundTo_le_add_half 6 (r.weight / totalWeight (rawRequirements jd))
    norm_num at h
    linarith
  have h2 := sum_map_add_const (rawRequirements jd)
    (fun r => r.weight / totalWeight (rawRequirements jd)) (1/2000000)
  have h3 := sum_map_div (rawRequirements jd) (fun r => r.weight)
    (totalWeight (rawRequirements jd))
  have h4 := totalWeight_sum_div_le_one jd
  rw [h2, h3] at h1
  linarith

lemma normalized_sum_close (jd : Indicators) (h : rawRequirements jd ≠ []) :
    |((normalizedRequirements jd).map (fun r => r.weight)).sum - 1|
      ≤ ((rawRequirements jd).length : ℚ) * (1/2000000) := by
  have hsum_pos : 0 < ((rawRequirements jd).map (fun r => r.weight)).sum := by
    apply List.sum_pos
    · intro x hx
      obtain ⟨r, hr, rfl⟩ := List.mem_map.mp hx
      exact rawRequirements_weight_pos jd r hr
    · intro hmap
      apply h
      cases hlist : rawRequirements jd with
      | nil => rfl
      | cons a l => rw [hlist] at hmap; simp at hmap
  have ht : totalWeight (rawRequirements jd) = ((rawRequirements jd).map (fun r => r.weight)).sum := by
    unfold totalWeight
    rw [if_neg (ne_of_gt hsum_pos)]
  have hdivsum : ((rawRequirements jd).map
      (fun r => r.weight / totalWeight (rawRequirements jd))).sum = 1 := by
    rw [sum_map_div, ht, div_self (ne_of_gt hsum_pos)]
  rw [normalizedRequirements_weights]
  have hdiff : ((rawRequirements jd).map
        (fun r => roundTo 6 (r.weight / totalWeight (rawRequirements jd)))).sum - 1
      = ((rawRequirements jd).map
        (fun r => roundTo 6 (r.weight / totalWeight (rawRequirements jd))
          - r.weight / totalWeight (rawRequirements jd))).sum := by
    rw [sum_map_sub_q, hdivsum]
  rw [hdiff]
  have habs := abs_sum_map_le (rawRequirements jd)
    (fun r => roundTo 6 (r.weight / totalWeight (rawRequirements jd))
      - r.weight / totalWeight (rawRequirements jd))
  have hbound : ((rawRequirements jd).map
        (fun r => |roundTo 6 (r.weight / totalWeight (rawRequirements jd))
          - r.weight / totalWeight (rawRequirements jd)|)).sum
      ≤ ((rawRequirements jd).map (fun _ => (1/2000000 : ℚ))).sum := by
    apply List.sum_le_sum
    intro r _
    have hr := abs_roundTo_sub 6 (r.weight / totalWeight (rawRequirements jd))
    norm_num at hr
    exact hr
  rw [sum_map_const_q] at hbound
  exact le_trans habs hbound

lemma map_weight_map_eval (jd cv : Indicators) (l : List WeightedReq) :
    (l.map (evalRequirement jd cv)).map (fun r => r.weight) = l.map (fun r => r.weight) := by
  induction l with
  | nil => rfl
  | cons a l ih => simp [ih, evalRequirement_weight]

/-! Unfolding lemmas for compute_relevant_score. -/

lemma compute_s_must_eq (jd cv : Indicators) :
    (compute_relevant_score jd cv).s_must
      = roundTo 4 (if 0 < jd.must_have.length
          then (cv.must_have.length : ℚ) / (jd.must_have.length : ℚ) else 0) := rfl

lemma compute_s_nice_eq (jd cv : Indicators) :
    (compute_relevant_score jd cv).s_nice
      = roundTo 4 (if 0 < jd.nice_to_have.length
          then (cv.nice_to_have.length : ℚ) / (jd.nice_to_have.length : ℚ) else 0) := rfl

lemma compute_score_eq (jd cv : Indicators) :
    (compute_relevant_score jd cv).score
      = roundTo 4 (0.6 * ((3 * (if 0 < jd.must_have.length
              then (cv.must_have.length : ℚ) / (jd.must_have.length : ℚ) else 0)
            + 1 * (if 0 < jd.nice_to_have.length
              then (cv.nice_to_have.length : ℚ) / (jd.nice_to_have.length : ℚ) else 0)) / 4)
          + 0.2 * indicatorMatchScalar jd.years_experience cv.years_experience
          + 0.15 * indicatorMatchList jd.languages cv.languages
          + 0.05 * indicatorMatchScalar jd.education_level cv.education_level) := rfl

lemma roundTo_one (d : Nat) : roundTo d 1 = 1 := by
  have h10 : (0:ℚ) < 10 ^ d := by positivity
  have h := roundTo_eq_of d 1 (10 ^ d) (by push_cast; linarith) (by push_cast; linarith)
  rw [h]
  push_cast
  rw [div_self (ne_of_gt h10)]

/-! Claim C5. -/

/-- C5: when the job indicators carry no requirement at all (empty skill
and language lists, falsy years_experience and education_level),
build_cv_jd_match returns, for every candidate, a report with empty
jd_requirements and match_results and raw_score 0. -/
theorem spec_C5_empty_job_totality (jd cv : Indicators)
    (h1 : jd.must_have = []) (h2 : jd.nice_to_have = []) (h3 : jd.languages = [])
    (h4 : pyTruthy jd.years_experience = false) (h5 : pyTruthy jd.education_level = false) :
    (build_cv_jd_match (.dict cv) (.dict jd)).jd_requirements = []
      ∧ (build_cv_jd_match (.dict cv) (.dict jd)).match_results = []
      ∧ (build_cv_jd_match (.dict cv) (.dict jd)).raw_score = 0 := by
  have hraw : rawRequirements jd = [] := by
    simp [rawRequirements, h1, h2, h3, h4, h5]
  have hnorm : normalizedRequirements jd = [] := by
    simp [normalizedRequirements, hraw]
  refine ⟨hnorm, ?_, ?_⟩
  · show (normalizedRequirements jd).map (evalRequirement jd cv) = []
    rw [hnorm]; rfl
  · show roundTo 4 (((((normalizedRequirements jd).map (evalRequirement jd cv)).filter
      (fun r => r.matched)).map (fun r => r.weight)).sum) = 0
    rw [hnorm]
    simpa using roundTo_zero 4

/-- Concrete job input for the C5 witness: no requirement at all. -/
def jdC5w : Indicators := ⟨[], [], some "", none, []⟩

/-- Concrete candidate input for the C5 witness. -/
def cvC5w : Indicators := ⟨["python"], [], some "3 years", some "MSc", ["english"]⟩

/-- C5 witness at concrete inputs. -/
theorem spec_C5_empty_job_totality_witness :
    (build_cv_jd_match (.dict cvC5w) (.dict jdC5w)).jd_requirements = []
      ∧ (build_cv_jd_match (.dict cvC5w) (.dict jdC5w)).match_results = []
      ∧ (build_cv_jd_match (.dict cvC5w) (.dict jdC5w)).raw_score = 0 :=
  spec_C5_empty_job_totality jdC5w cvC5w rfl rfl rfl rfl rfl

/-! Claim C8. -/

/-- Concrete report for the C8 counterexample: it has a match_results key,
an unmatched requirement, and no jd_requirements key. -/
def mrC8 : ReportDict := ⟨some [⟨"python", 1, true, false, none⟩], some 0, none⟩

/-- C8 counterexample: a report that lacks the requirements field but has
match_results is NOT answered with an error value, contradicting the claim
that a missing requirements field also triggers the error. -/
theorem spec_C8_counterexample :
    mrC8.jd_requirements = none ∧ exOk (generate_counterfactuals mrC8 3) = true :=
  ⟨rfl, rfl⟩

/-- C8 (amended): generate_counterfactuals returns the explicit error
value exactly when the match_report argument is absent or empty or lacks
the match_results field; the requirements field is never consulted. For
any report carrying match_results it returns the bundle with no error. -/
theorem spec_C8_error_iff (mr : ReportDict) :
    exOk (generate_counterfactuals mr 3) = mr.match_results.isSome := by
  obtain ⟨m, r, j⟩ := mr
  cases m <;> rfl

/-! Claim C3. -/

/-- Concrete job input for the C3 counterexample. -/
def jdC3 : Indicators := ⟨["python"], [], none, none, []⟩

/-- Concrete candidate input for the C3 counterexample: one skill that is
not among the job requirements. -/
def cvC3 : Indicators := ⟨["java"], [], none, none, []⟩

/-- C3 counterexample: the s_must sub score is NOT the fraction of the
must_have set of the job present in the candidate set: with job must_have
python and candidate must_have java the fraction present is 0 but the
code returns 1, because it divides the raw list lengths. -/
theorem spec_C3_counterexample :
    (compute_relevant_score jdC3 cvC3).s_must = 1
      ∧ specFractionPresent jdC3.must_have cvC3.must_have = 0
      ∧ (compute_relevant_score jdC3 cvC3).s_must
          ≠ specFractionPresent jdC3.must_have cvC3.must_have := by
  have hfrac : specFractionPresent jdC3.must_have cvC3.must_have = 0 := by
    have hc : (List.filter (fun x => (["java"] : List String).contains x) ["python"]) = [] := by
      decide
    simp [specFractionPresent, jdC3, cvC3, hc]
  have hmust : (compute_relevant_score jdC3 cvC3).s_must = 1 := by
    rw [compute_s_must_eq]
    show roundTo 4 (if 0 < (["python"] : List String).length
      then ((["java"] : List String).length : ℚ) / ((["python"] : List String).length : ℚ)
      else 0) = 1
    norm_num
    exact roundTo_one 4
  refine ⟨hmust, hfrac, ?_⟩
  rw [hmust, hfrac]
  norm_num

/-- C3 (amended): the s_must and s_nice sub scores divide the raw length
of the candidate list by the raw length of the corresponding job list
(rounded to 4 places), with 0 when the job list is empty; the candidate
list is trusted as the already matched subset and is not intersected with
the job list. -/
theorem spec_C3_subscores_amended (jd cv : Indicators) :
    (compute_relevant_score jd cv).s_must
        = (if 0 < jd.must_have.length
            then roundTo 4 ((cv.must_have.length : ℚ) / (jd.must_have.length : ℚ)) else 0)
      ∧ (compute_relevant_score jd cv).s_nice
        = (if 0 < jd.nice_to_have.length
            then roundTo 4 ((cv.nice_to_have.length : ℚ) / (jd.nice_to_have.length : ℚ)) else 0) := by
  constructor
  · rw [compute_s_must_eq, apply_ite (roundTo 4), roundTo_zero]
  · rw [compute_s_nice_eq, apply_ite (roundTo 4), roundTo_zero]

/-! Claim C2. -/

lemma indicatorMatchScalar_bounds (j c : Option String) :
    0 ≤ indicatorMatchScalar j c ∧ indicatorMatchScalar j c ≤ 1 := by
  unfold indicatorMatchScalar
  split_ifs <;> norm_num

lemma indicatorMatchList_bounds (j c : List String) :
    0 ≤ indicatorMatchList j c ∧ indicatorMatchList j c ≤ 1 := by
  unfold indicatorMatchList
  split_ifs <;> norm_num

lemma build_jd_requirements_eq (jd cv : Indicators) :
    (build_cv_jd_match (.dict cv) (.dict jd)).jd_requirements = normalizedRequirements jd := rfl

lemma build_match_results_eq (jd cv : Indicators) :
    (build_cv_jd_match (.dict cv) (.dict jd)).match_results
      = (normalizedRequirements jd).map (evalRequirement jd cv) := rfl

lemma build_raw_score_eq (jd cv : Indicators) :
    (build_cv_jd_match (.dict cv) (.dict jd)).raw_score
      = roundTo 4 (((((normalizedRequirements jd).map (evalRequirement jd cv)).filter
          (fun r => r.matched)).map (fun r => r.weight)).sum) := rfl

lemma filter_eq_self_of_all {α : Type} (l : List α) (p : α → Bool)
    (h : ∀ a ∈ l, p a = true) : l.filter p = l := by
  induction l with
  | nil => rfl
  | cons a l ih =>
    rw [List.filter_cons, if_pos (h a (by simp)), ih (fun b hb => h b (by simp [hb]))]

/-- Concrete job input for the C2 counterexample. -/
def jdC2cx : Indicators := ⟨["python"], [], none, none, []⟩

/-- Concrete candidate input for the C2 counterexample: more must_have
entries than the job asks for. -/
def cvC2cx : Indicators := ⟨["a", "b", "c"], [], none, none, []⟩

lemma roundTo4_seven_fourth : roundTo 4 ((7:ℚ)/4) = 7/4 := by
  rw [roundTo_eq_of 4 (7/4) 17500 (by norm_num) (by norm_num)]
  norm_num

/-- 113 distinct skill names, for the raw_score half of the C2
counterexample. -/
def namesC2 : List String :=
  ["s1", "s2", "s3", "s4", "s5", "s6", "s7", "s8", "s9", "s10", "s11", "s12", "s13", "s14", "s15", "s16", "s17", "s18", "s19", "s20", "s21", "s22", "s23", "s24", "s25", "s26", "s27", "s28", "s29", "s30", "s31", "s32", "s33", "s34", "s35", "s36", "s37", "s38", "s39", "s40", "s41", "s42", "s43", "s44", "s45", "s46", "s47", "s48", "s49", "s50", "s51", "s52", "s53", "s54", "s55", "s56", "s57", "s58", "s59", "s60", "s61", "s62", "s63", "s64", "s65", "s66", "s67", "s68", "s69", "s70", "s71", "s72", "s73", "s74", "s75", "s76", "s77", "s78", "s79", "s80", "s81", "s82", "s83", "s84", "s85", "s86", "s87", "s88", "s89", "s90", "s91", "s92", "s93", "s94", "s95", "s96", "s97", "s98", "s99", "s100", "s101", "s102", "s103", "s104", "s105", "s106", "s107", "s108", "s109", "s110", "s111", "s112", "s113"]

/-- Job input with 113 must_have requirements. -/
def jdC2big : Indicators := ⟨namesC2, [], none, none, []⟩

/-- Candidate input carrying the same 113 skills, so every requirement is
matched. -/
def cvC2big : Indicators := ⟨namesC2, [], none, none, []⟩

lemma roundTo6_one_113th : roundTo 6 ((2:ℚ)/226) = 885/100000 := by
  rw [roundTo_eq_of 6 (2/226) 8850 (by norm_num) (by norm_num)]
  norm_num

lemma roundTo4_overshoot : roundTo 4 ((20001:ℚ)/20000) = 10001/10000 := by
  rw [roundTo_eq_of 4 (20001/20000) 10001 (by norm_num) (by norm_num)]
  norm_num

lemma namesC2_map_pyLower : namesC2.map pyLower = namesC2 := by decide

lemma rawC2big : rawRequirements jdC2big
    = namesC2.map (fun n => ⟨n, 2, true⟩) := by
  simp [rawRequirements, jdC2big, namesC2_map_pyLower, pyTruthy]

lemma weightsC2big : (rawRequirements jdC2big).map (fun r => r.weight)
    = namesC2.map (fun _ => (2:ℚ)) := by
  rw [rawC2big, List.map_map]
  rfl

lemma totalC2big : totalWeight (rawRequirements jdC2big) = 226 := by
  unfold totalWeight
  rw [weightsC2big, sum_map_const_q, show namesC2.length = 113 from rfl]
  norm_num

lemma normWeightsC2big : (normalizedRequirements jdC2big).map (fun r => r.weight)
    = namesC2.map (fun _ => (885:ℚ)/100000) := by
  rw [normalizedRequirements_weights, totalC2big, rawC2big, List.map_map]
  have hfun : ((fun r => roundTo 6 (r.weight / 226))
        ∘ (fun n : String => (⟨n, 2, true⟩ : WeightedReq)))
      = (fun _ : String => (885:ℚ)/100000) := by
    funext n
    simp [Function.comp, roundTo6_one_113th]
  rw [hfun]

set_option maxRecDepth 40000 in
lemma matchedC2big :
    ∀ r ∈ (normalizedRequirements jdC2big).map (evalRequirement jdC2big cvC2big),
      r.matched = true := by
  decide

lemma rawScoreC2big :
    (build_cv_jd_match (.dict cvC2big) (.dict jdC2big)).raw_score = 10001/10000 := by
  rw [build_raw_score_eq]
  rw [filter_eq_self_of_all _ _ matchedC2big]
  rw [map_weight_map_eval, normWeightsC2big, sum_map_const_q,
    show namesC2.length = 113 from rfl]
  rw [show ((113:ℕ):ℚ) * ((885:ℚ)/100000) = 20001/20000 from by norm_num]
  exact roundTo4_overshoot

/-- C2 counterexample: both halves of the claim fail. For the job dict
with one must_have skill and a candidate dict with three must_have
entries, compute_relevant_score returns score 7/4 > 1; and for a job with
113 must_have skills all carried by the candidate, every normalized
weight rounds 1/113 up to 0.00885, the matched weight sum is 1.00005, and
build_cv_jd_match returns raw_score 1.0001 > 1. -/
theorem spec_C2_counterexample :
    ((compute_relevant_score jdC2cx cvC2cx).score = 7/4
        ∧ ¬ ((compute_relevant_score jdC2cx cvC2cx).score ≤ 1))
      ∧ ((build_cv_jd_match (.dict cvC2big) (.dict jdC2big)).raw_score = 10001/10000
        ∧ ¬ ((build_cv_jd_match (.dict cvC2big) (.dict jdC2big)).raw_score ≤ 1)) := by
  have h1 : jdC2cx.must_have.length = 1 := rfl
  have h2 : cvC2cx.must_have.length = 3 := rfl
  have h3 : jdC2cx.nice_to_have.length = 0 := rfl
  have h4 : cvC2cx.nice_to_have.length = 0 := rfl
  have h5 : indicatorMatchScalar jdC2cx.years_experience cvC2cx.years_experience = 1 := rfl
  have h6 : indicatorMatchList jdC2cx.languages cvC2cx.languages = 1 := rfl
  have h7 : indicatorMatchScalar jdC2cx.education_level cvC2cx.education_level = 1 := rfl
  have hmain : (compute_relevant_score jdC2cx cvC2cx).score = 7/4 := by
    rw [compute_score_eq, h1, h2, h3, h4, h5, h6, h7]
    have harg : (0.6 * ((3 * (if 0 < 1 then ((3:ℕ) : ℚ) / ((1:ℕ) : ℚ) else 0)
          + 1 * (if 0 < 0 then ((0:ℕ) : ℚ) / ((0:ℕ) : ℚ) else 0)) / 4)
        + 0.2 * 1 + 0.15 * 1 + 0.05 * 1 : ℚ) = 7/4 := by norm_num
    rw [harg]
    exact roundTo4_seven_fourth
  exact ⟨⟨hmain, by rw [hmain]; norm_num⟩,
    ⟨rawScoreC2big, by rw [rawScoreC2big]; norm_num⟩⟩

/-- C2 (amended): both scores are always nonnegative; the score of
compute_relevant_score is at most 1 provided the candidate skill lists
are no longer than the corresponding job lists (as the upstream extractor
guarantees), and the raw_score of build_cv_jd_match is at most 1 provided
the job contributes at most 99 requirements (beyond that, accumulated
upward rounding of the 6 place weights can push the rounded sum past 1,
as the 113 requirement counterexample shows). Each bound depends only on
its own proviso. -/
theorem spec_C2_boundedness_amended (jd cv : Indicators) :
    (0 ≤ (compute_relevant_score jd cv).score)
      ∧ (cv.must_have.length ≤ jd.must_have.length
          → cv.nice_to_have.length ≤ jd.nice_to_have.length
          → (compute_relevant_score jd cv).score ≤ 1)
      ∧ (0 ≤ (build_cv_jd_match (.dict cv) (.dict jd)).raw_score)
      ∧ ((rawRequirements jd).length ≤ 99
          → (build_cv_jd_match (.dict cv) (.dict jd)).raw_score ≤ 1) := by
  have ha0 : (0:ℚ) ≤ (if 0 < jd.must_have.length
      then (cv.must_have.length : ℚ) / (jd.must_have.length : ℚ) else 0) := by
    split
    · positivity
    · norm_num
  have hb0 : (0:ℚ) ≤ (if 0 < jd.nice_to_have.length
      then (cv.nice_to_have.length : ℚ) / (jd.nice_to_have.length : ℚ) else 0) := by
    split
    · positivity
    · norm_num
  obtain ⟨he0, he1⟩ := indicatorMatchScalar_bounds jd.years_experience cv.years_experience
  obtain ⟨hd0, hd1⟩ := indicatorMatchScalar_bounds jd.education_level cv.education_level
  obtain ⟨hl0, hl1⟩ := indicatorMatchList_bounds jd.languages cv.languages
  have hW : ∀ r ∈ (normalizedRequirements jd).map (evalRequirement jd cv), 0 ≤ r.weight := by
    intro r hrr
    obtain ⟨q, hq, rfl⟩ := List.mem_map.mp hrr
    rw [evalRequirement_weight]
    exact normalizedRequirements_weight_nonneg jd q hq
  have hS0 : 0 ≤ ((((normalizedRequirements jd).map (evalRequirement jd cv)).filter
      (fun r => r.matched)).map (fun r => r.weight)).sum := by
    apply List.sum_nonneg
    intro x hx
    obtain ⟨r, hrr, rfl⟩ := List.mem_map.mp hx
    exact hW r (List.mem_of_mem_filter hrr)
  refine ⟨?_, ?_, ?_, ?_⟩
  · -- score is nonnegative, with no proviso
    rw [compute_score_eq]
    apply roundTo_nonneg
    linarith
  · -- score is at most 1 under the subset proviso alone
    intro hm hn
    rw [compute_score_eq]
    have ha1 : (if 0 < jd.must_have.length
        then (cv.must_have.length : ℚ) / (jd.must_have.length : ℚ) else 0) ≤ 1 := by
      split
      · rename_i hpos
        rw [div_le_one (by exact_mod_cast hpos)]
        exact_mod_cast hm
      · norm_num
    have hb1 : (if 0 < jd.nice_to_have.length
        then (cv.nice_to_have.length : ℚ) / (jd.nice_to_have.length : ℚ) else 0) ≤ 1 := by
      split
      · rename_i hpos
        rw [div_le_one (by exact_mod_cast hpos)]
        exact_mod_cast hn
      · norm_num
    apply roundTo_le_one
    linarith
  · -- raw_score is nonnegative, with no proviso
    rw [build_raw_score_eq]
    exact roundTo_nonneg 4 hS0
  · -- raw_score is at most 1 under the requirement count proviso alone
    intro hr
    have hS1 := sum_map_filter_le ((normalizedRequirements jd).map (evalRequirement jd cv))
      (fun r => r.matched) (fun r => r.weight) hW
    have hS2 : (((normalizedRequirements jd).map (evalRequirement jd cv)).map
        (fun r => r.weight)).sum = ((normalizedRequirements jd).map (fun r => r.weight)).sum := by
      rw [map_weight_map_eval]
    have hS3 := normalized_sum_le jd
    have hn99 : ((rawRequirements jd).length : ℚ) ≤ 99 := by exact_mod_cast hr
    rw [build_raw_score_eq]
    apply roundTo4_le_one_of_lt
    have hmono : ((rawRequirements jd).length : ℚ) * (1/2000000) ≤ 99 * (1/2000000) := by
      linarith
    linarith

/-- Concrete job input for the C2 witness. -/
def jdC2w : Indicators := ⟨["python"], [], none, none, []⟩

/-- Concrete candidate input for the C2 witness. -/
def cvC2w : Indicators := ⟨["python"], [], none, none, []⟩

/-- C2 witness at concrete inputs, discharging the subset proviso for the
score bound and the requirement count proviso for the raw_score bound. -/
theorem spec_C2_boundedness_amended_witness :
    (0 ≤ (compute_relevant_score jdC2w cvC2w).score)
      ∧ ((compute_relevant_score jdC2w cvC2w).score ≤ 1)
      ∧ (0 ≤ (build_cv_jd_match (.dict cvC2w) (.dict jdC2w)).raw_score)
      ∧ ((build_cv_jd_match (.dict cvC2w) (.dict jdC2w)).raw_score ≤ 1) :=
  ⟨(spec_C2_boundedness_amended jdC2w cvC2w).1,
    (spec_C2_boundedness_amended jdC2w cvC2w).2.1 (by decide) (by decide),
    (spec_C2_boundedness_amended jdC2w cvC2w).2.2.1,
    (spec_C2_boundedness_amended jdC2w cvC2w).2.2.2 (by decide)⟩

/-! Claim C6. -/

/-- Concrete job input for the C6 counterexample: 14 must_have skills. -/
def jdC6 : Indicators :=
  ⟨["a", "b", "c", "d", "e", "f", "g", "h", "i", "j", "k", "l", "m", "n"],
    [], none, none, []⟩

lemma roundTo6_two_twentyeighth : roundTo 6 ((2:ℚ)/28) = 71429/1000000 := by
  rw [roundTo_eq_of 6 (2/28) 71429 (by norm_num) (by norm_num)]
  norm_num

/-- C6 counterexample: with 14 must_have requirements every normalized
weight rounds up from 1/14 to 0.071429, so the weight sum is 1.000006 and
misses 1 by 6e-6, which exceeds the claimed 1e-6 tolerance. -/
theorem spec_C6_counterexample :
    ¬ (|((build_cv_jd_match (.dict emptyIndicators) (.dict jdC6)).jd_requirements.map
          (fun r => r.weight)).sum - 1| ≤ 1/1000000) := by
  rw [build_jd_requirements_eq, normalizedRequirements_weights]
  have hmap : (["a", "b", "c", "d", "e", "f", "g", "h", "i", "j", "k", "l", "m", "n"] :
      List String).map pyLower
      = ["a", "b", "c", "d", "e", "f", "g", "h", "i", "j", "k", "l", "m", "n"] := by decide
  have hraw : rawRequirements jdC6
      = [⟨"a",2,true⟩, ⟨"b",2,true⟩, ⟨"c",2,true⟩, ⟨"d",2,true⟩, ⟨"e",2,true⟩, ⟨"f",2,true⟩,
         ⟨"g",2,true⟩, ⟨"h",2,true⟩, ⟨"i",2,true⟩, ⟨"j",2,true⟩, ⟨"k",2,true⟩, ⟨"l",2,true⟩,
         ⟨"m",2,true⟩, ⟨"n",2,true⟩] := by
    simp [rawRequirements, jdC6, hmap, pyTruthy]
  have ht : totalWeight (rawRequirements jdC6) = 28 := by
    rw [hraw]
    norm_num [totalWeight, List.map_cons, List.map_nil, List.sum_cons, List.sum_nil]
  rw [ht, hraw]
  simp only [List.map_cons, List.map_nil, List.sum_cons, List.sum_nil,
    roundTo6_two_twentyeighth]
  rw [abs_le]
  norm_num

/-- C6 (amended): for a job contributing n requirements (n at least one),
the sum of the normalized weights differs from 1 by at most n times 5e-7
(one half unit in the 6th decimal place per requirement); the fixed 1e-6
tolerance of the claim only covers small requirement sets. -/
theorem spec_C6_weight_sum_amended (jd cv : Indicators) (h : rawRequirements jd ≠ []) :
    |((build_cv_jd_match (.dict cv) (.dict jd)).jd_requirements.map
        (fun r => r.weight)).sum - 1|
      ≤ ((rawRequirements jd).length : ℚ) * (1/2000000) := by
  rw [build_jd_requirements_eq]
  exact normalized_sum_close jd h

/-- Concrete job input for the C6 witness. -/
def jdC6w : Indicators := ⟨["python"], [], none, none, []⟩

/-- C6 witness at concrete inputs. -/
theorem spec_C6_weight_sum_amended_witness :
    rawRequirements jdC6w ≠ []
      ∧ |((build_cv_jd_match (.dict emptyIndicators) (.dict jdC6w)).jd_requirements.map
            (fun r => r.weight)).sum - 1|
          ≤ ((rawRequirements jdC6w).length : ℚ) * (1/2000000) :=
  ⟨by decide, spec_C6_weight_sum_amended jdC6w emptyIndicators (by decide)⟩

/-! Claim C9. -/

/-- Concrete job input for the C9 counterexample: a must_have entry that
is the empty string. -/
def jdC9 : Indicators := ⟨[""], [], none, none, []⟩

/-- Concrete candidate input for the C9 counterexample: the candidate
token set also contains the empty string. -/
def cvC9 : Indicators := ⟨[""], [], none, none, []⟩

/-- C9 counterexample: a requirement whose name is the empty string IS
matched when the candidate token set contains the empty string, refuting
the claim that an empty named requirement is never matched. -/
theorem spec_C9_counterexample :
    ((build_cv_jd_match (.dict cvC9) (.dict jdC9)).match_results.map
        (fun r => (r.requirement, r.matched))) = [("", true)] := by
  decide

lemma evalRequirement_matched_empty_name (jd cv : Indicators) (q : WeightedReq)
    (hq : q.name = "") :
    (evalRequirement jd cv q).matched
      = ((cv.must_have.map pyLower) ++ (cv.nice_to_have.map pyLower)).contains "" := by
  unfold evalRequirement
  rw [hq]
  rw [if_neg (show ¬ (pyStartsWith "" "lang:" = true) by decide)]
  rw [if_neg (show ¬ (("" : String) = "years_experience") by decide)]
  rw [if_neg (show ¬ (("" : String) = "education_level") by decide)]

/-- C9 (amended): a requirement whose name is the empty string is matched
exactly when the empty string occurs among the candidate lower cased
must_have and nice_to_have tokens; in particular, when the candidate
token lists contain no empty string, an empty named requirement is never
matched. -/
theorem spec_C9_empty_name_amended (jd cv : Indicators)
    (hc : ((cv.must_have.map pyLower) ++ (cv.nice_to_have.map pyLower)).contains "" = false) :
    ∀ r ∈ (build_cv_jd_match (.dict cv) (.dict jd)).match_results,
      r.requirement = "" → r.matched = false := by
  intro r hr hname
  rw [build_match_results_eq] at hr
  obtain ⟨q, hq, rfl⟩ := List.mem_map.mp hr
  rw [evalRequirement_requirement] at hname
  rw [evalRequirement_matched_empty_name jd cv q hname]
  exact hc

/-- Concrete job input for the C9 witness. -/
def jdC9w : Indicators := ⟨[""], ["python"], none, none, []⟩

/-- Concrete candidate input for the C9 witness. -/
def cvC9w : Indicators := ⟨["java"], [], none, none, []⟩

/-- C9 witness at concrete inputs. -/
theorem spec_C9_empty_name_amended_witness :
    ((cvC9w.must_have.map pyLower) ++ (cvC9w.nice_to_have.map pyLower)).contains "" = false
      ∧ ∀ r ∈ (build_cv_jd_match (.dict cvC9w) (.dict jdC9w)).match_results,
          r.requirement = "" → r.matched = false :=
  ⟨by decide, spec_C9_empty_name_amended jdC9w cvC9w (by decide)⟩

/-! Claim C10. -/

lemma evalRequirement_education_matched (jd cv : Indicators) (q : WeightedReq)
    (hname : q.name = "education_level")
    (ht : pyTruthy jd.education_level = true)
    (heq : pyLower (pyStrip (pyStr cv.education_level))
        = pyLower (pyStrip (pyStr jd.education_level))) :
    (evalRequirement jd cv q).requirement = "education_level"
      ∧ (evalRequirement jd cv q).matched = true := by
  unfold evalRequirement
  rw [hname]
  rw [if_neg (show ¬ (pyStartsWith "education_level" "lang:" = true) by decide)]
  rw [if_neg (show ¬ (("education_level" : String) = "years_experience") by decide)]
  rw [if_pos (rfl : ("education_level" : String) = "education_level")]
  refine ⟨rfl, ?_⟩
  show (!pyTruthy jd.education_level
    || (pyLower (pyStrip (pyStr cv.education_level))
          == pyLower (pyStrip (pyStr jd.education_level)))) = true
  rw [ht, heq]
  simp

/-- C10: when the job education_level is a string that strips and lower
cases to none and the candidate education_level is absent, the
education_level requirement (always the last entry of the match results)
is marked matched, because the missing candidate value is stringified to
None before the trimmed case insensitive comparison. -/
theorem spec_C10_none_education (jd cv : Indicators) (s : String)
    (hjd : jd.education_level = some s)
    (hs : pyLower (pyStrip s) = "none")
    (hcv : cv.education_level = none) :
    ((build_cv_jd_match (.dict cv) (.dict jd)).match_results.getLast?).map
        (fun r => (r.requirement, r.matched)) = some ("education_level", true) := by
  have hst : s ≠ "" := by
    intro h0
    rw [h0] at hs
    exact absurd hs (by decide)
  have hemp : s.isEmpty = false := by
    cases hemp : s.isEmpty
    · rfl
    · exact absurd ((String.isEmpty_iff s).mp hemp) hst
  have htruthy : pyTruthy jd.education_level = true := by
    rw [hjd]
    show (!s.isEmpty) = true
    rw [hemp]
    rfl
  have heq : pyLower (pyStrip (pyStr cv.education_level))
      = pyLower (pyStrip (pyStr jd.education_level)) := by
    rw [hcv, hjd]
    show pyLower (pyStrip "None") = pyLower (pyStrip s)
    rw [show pyLower (pyStrip "None") = "none" by decide]
    exact hs.symm
  have hraw : rawRequirements jd
      = ((jd.must_have.map pyLower).map (fun n => (⟨n, 2, true⟩ : WeightedReq))
          ++ (jd.nice_to_have.map pyLower).map (fun n => ⟨n, 1, false⟩)
          ++ (jd.languages.map pyLower).map (fun n => ⟨"lang:" ++ n, 1/2, false⟩)
          ++ (if pyTruthy jd.years_experience then [⟨"years_experience", 1, false⟩] else []))
        ++ [⟨"education_level", 4/5, false⟩] := by
    unfold rawRequirements
    rw [htruthy]
    simp
  rw [build_match_results_eq]
  unfold normalizedRequirements
  rw [hraw]
  rw [List.map_append, List.map_append, List.map_cons, List.map_nil, List.map_cons, List.map_nil]
  rw [List.getLast?_append_cons]
  have hfin := evalRequirement_education_matched jd cv
    ⟨"education_level",
      roundTo 6 ((4/5 : ℚ) / totalWeight (rawRequirements jd)), false⟩
    rfl htruthy heq
  simp only [List.getLast?_singleton, Option.map_some']
  rw [← hraw]
  rw [hfin.1, hfin.2]

/-- Concrete job input for the C10 witness. -/
def jdC10w : Indicators := ⟨[], [], none, some " None ", []⟩

/-- Concrete candidate input for the C10 witness: no education_level. -/
def cvC10w : Indicators := ⟨["x"], [], none, none, []⟩

/-- C10 witness at concrete inputs. -/
theorem spec_C10_none_education_witness :
    jdC10w.education_level = some " None "
      ∧ pyLower (pyStrip " None ") = "none"
      ∧ cvC10w.education_level = none
      ∧ ((build_cv_jd_match (.dict cvC10w) (.dict jdC10w)).match_results.getLast?).map
          (fun r => (r.requirement, r.matched)) = some ("education_level", true) :=
  ⟨rfl, by decide, rfl,
    spec_C10_none_education jdC10w cvC10w " None " rfl (by decide) rfl⟩

/-! Claim C4. -/

/-- Scenario 1 job input: one must_have skill, all other fields empty. -/
def jdC4 : Indicators := ⟨["python"], [], some "", some "", []⟩

/-- Scenario 1 candidate input: the same single must_have skill. -/
def cvC4 : Indicators := ⟨["python"], [], none, none, []⟩

lemma roundTo4_seventeen_twentieth : roundTo 4 ((17:ℚ)/20) = 17/20 := by
  rw [roundTo_eq_of 4 (17/20) 8500 (by norm_num) (by norm_num)]
  norm_num

lemma computeC4_score : (compute_relevant_score jdC4 cvC4).score = 17/20 := by
  have h1 : jdC4.must_have.length = 1 := rfl
  have h2 : cvC4.must_have.length = 1 := rfl
  have h3 : jdC4.nice_to_have.length = 0 := rfl
  have h4 : cvC4.nice_to_have.length = 0 := rfl
  have h5 : indicatorMatchScalar jdC4.years_experience cvC4.years_experience = 1 := rfl
  have h6 : indicatorMatchList jdC4.languages cvC4.languages = 1 := rfl
  have h7 : indicatorMatchScalar jdC4.education_level cvC4.education_level = 1 := rfl
  rw [compute_score_eq, h1, h2, h3, h4, h5, h6, h7]
  have harg : (0.6 * ((3 * (if 0 < 1 then ((1:ℕ) : ℚ) / ((1:ℕ) : ℚ) else 0)
        + 1 * (if 0 < 0 then ((0:ℕ) : ℚ) / ((0:ℕ) : ℚ) else 0)) / 4)
      + 0.2 * 1 + 0.15 * 1 + 0.05 * 1 : ℚ) = 17/20 := by norm_num
  rw [harg]
  exact roundTo4_seventeen_twentieth

/-- C4 counterexample: at the inputs of scenario 1 the relevance score is
17/20 = 0.85, not the claimed 0.6, because the three non skill sub scores
each default to 1 when the job field is empty and contribute 0.4, and
s_skills is 0.75 rather than 1. -/
theorem spec_C4_counterexample :
    (compute_relevant_score jdC4 cvC4).score ≠ (0.6 : ℚ) := by
  rw [computeC4_score]
  norm_num

lemma rawC4 : rawRequirements jdC4 = [⟨"python", 2, true⟩] := by
  have hmap : (["python"] : List String).map pyLower = ["python"] := by decide
  simp [rawRequirements, jdC4, hmap, show pyTruthy (some "") = false from rfl]

lemma normC4 : normalizedRequirements jdC4 = [⟨"python", 1, true⟩] := by
  have ht : totalWeight (rawRequirements jdC4) = 2 := by
    rw [rawC4]
    norm_num [totalWeight, List.map_cons, List.map_nil, List.sum_cons, List.sum_nil]
  unfold normalizedRequirements
  rw [ht, rawC4]
  simp only [List.map_cons, List.map_nil]
  rw [show ((2:ℚ)/2 : ℚ) = 1 from by norm_num, roundTo_one]

/-- C4 (amended): at the inputs of scenario 1, build_cv_jd_match returns
raw_score 1, and compute_relevant_score returns s_must 1 and score
17/20 = 0.85 (not 0.6). -/
theorem spec_C4_scenario_one_amended :
    (build_cv_jd_match (.dict cvC4) (.dict jdC4)).raw_score = 1
      ∧ (compute_relevant_score jdC4 cvC4).s_must = 1
      ∧ (compute_relevant_score jdC4 cvC4).score = (0.85 : ℚ) := by
  refine ⟨?_, ?_, ?_⟩
  · rw [build_raw_score_eq, normC4]
    have hev : (evalRequirement jdC4 cvC4 ⟨"python", 1, true⟩).matched = true := by decide
    simp only [List.map_cons, List.map_nil, List.filter_cons, List.filter_nil, hev,
      if_true, List.sum_cons, List.sum_nil, evalRequirement_weight, add_zero]
    exact roundTo_one 4
  · rw [compute_s_must_eq]
    show roundTo 4 (if 0 < (["python"] : List String).length
      then ((["python"] : List String).length : ℚ) / ((["python"] : List String).length : ℚ)
      else 0) = 1
    norm_num
    exact roundTo_one 4
  · rw [computeC4_score]
    norm_num

/-! Claim C1. -/

/-- Decidable equality on the generator result type, used to evaluate the
generator at concrete reports. -/
instance : DecidableEq (Except String CfBundle) := fun a b =>
  match a, b with
  | .ok x, .ok y =>
    match decEq x y with
    | isTrue h => isTrue (by rw [h])
    | isFalse h => isFalse (by intro hc; cases hc; exact h rfl)
  | .error x, .error y =>
    match decEq x y with
    | isTrue h => isTrue (by rw [h])
    | isFalse h => isFalse (by intro hc; cases hc; exact h rfl)
  | .ok _, .error _ => isFalse (by intro hc; cases hc)
  | .error _, .ok _ => isFalse (by intro hc; cases hc)

/-- Failing input for C1: a match report with raw_score 1/2 and one
unmatched must have requirement. -/
def mrC1 : ReportDict := ⟨some [⟨"python", 1, true, false, none⟩], some (1/2), none⟩

lemma genC1 : generate_counterfactuals mrC1 3
    = .ok ⟨[⟨"python", mustTemplate "python"⟩],
        ["However, it lacks: python, which limits a full match."],
        ["Step 1: build_cv_jd_match produced matched/missing per requirement.",
         "Step 2: Identified top missing requirements by impact: "
           ++ pyListRepr ["python"] ++ ".",
         "Step 3: Proposed minimal, template-based changes and estimated score deltas."]⟩ := by
  decide

lemma valC1_delta : (validate_and_rank_counterfactuals mrC1 "" "" 3).toOption.map
    (fun b => b.validated_counterfactuals.map (fun c => c.actual_delta_raw))
      = some [-(1/2)] := by
  have hdelta : roundTo 4 (-(1/2) : ℚ) = -(1/2) := by
    rw [roundTo_eq_of 4 (-(1/2)) (-5000) (by norm_num) (by norm_num)]
    norm_num
  unfold validate_and_rank_counterfactuals
  rw [genC1]
  simp only [Except.toOption, Option.map_some', List.map_cons, List.map_nil,
    enrichCounterfactual, apply_counterfactual_to_cv, build_cv_jd_match, mrC1,
    Option.getD, List.find?, sortDescBy, orderedInsertDescBy]
  norm_num [hdelta]

/-- C1: the monotonicity claim fails in the code as written: at the
failing input (a report with raw_score 1/2 and one missing requirement,
with raw text CV and JD), the validator re runs build_cv_jd_match on a
raw string CV, which since the removal of the legacy text path always
returns the empty report with raw_score 0, so actual_delta_raw is
-(1/2), which is negative. -/
theorem spec_C1_validation_delta_negative :
    (validate_and_rank_counterfactuals mrC1 "" "" 3).toOption.map
        (fun b => b.validated_counterfactuals.map (fun c => c.actual_delta_raw))
      = some [-(1/2)]
    ∧ (-(1/2) : ℚ) < 0 :=
  ⟨valC1_delta, by norm_num⟩

/-! Claim C7. -/

/-- C7: the validated counterfactuals are sorted descending by impact
ratio, and entries with equal impact ratio keep the relative order in
which the generator produced them (the enrichment step maps the generated
list in order, and the Python sort is stable). -/
theorem spec_C7_ranking_stability (mr : ReportDict) (cv jd : String) (p : CfBundle)
    (b : ValidatedBundle)
    (hp : generate_counterfactuals mr 3 = .ok p)
    (hb : validate_and_rank_counterfactuals mr cv jd 3 = .ok b) :
    b.validated_counterfactuals.Pairwise (fun x y => y.impact_ratio ≤ x.impact_ratio)
      ∧ ∀ v : ℚ, b.validated_counterfactuals.filter (fun c => c.impact_ratio == v)
          = (p.counterfactuals.map (enrichCounterfactual mr cv jd)).filter
              (fun c => c.impact_ratio == v) := by
  have hb2 : b.validated_counterfactuals
      = sortDescBy (fun c => c.impact_ratio)
          (p.counterfactuals.map (enrichCounterfactual mr cv jd)) := by
    unfold validate_and_rank_counterfactuals at hb
    split at hb
    · rename_i e he
      rw [hp] at he
      cases he
    · rename_i predicted hpred
      rw [hp] at hpred
      injection hpred with hpred2
      subst hpred2
      injection hb with hb3
      rw [← hb3]
  rw [hb2]
  exact ⟨sortDescBy_pairwise _ _, fun v => filter_sortDescBy _ v _⟩

/-- Concrete report for the C7 witness: one missing requirement. -/
def mr7w : ReportDict := ⟨some [⟨"python", 1, true, false, none⟩], some 0, none⟩

/-- The generator bundle of the C7 witness. -/
def p7w : CfBundle := (generate_counterfactuals mr7w 3).toOption.getD ⟨[], [], []⟩

/-- The validated bundle of the C7 witness. -/
def b7w : ValidatedBundle :=
  (validate_and_rank_counterfactuals mr7w "" "" 3).toOption.getD ⟨[], [], []⟩

/-- C7 witness at concrete inputs. -/
theorem spec_C7_ranking_stability_witness :
    validate_and_rank_counterfactuals mr7w "" "" 3 = .ok b7w
      ∧ b7w.validated_counterfactuals.Pairwise
          (fun x y => y.impact_ratio ≤ x.impact_ratio)
      ∧ b7w.validated_counterfactuals.filter (fun c => c.impact_ratio == 0)
          = (p7w.counterfactuals.map (enrichCounterfactual mr7w "" "")).filter
              (fun c => c.impact_ratio == 0) :=
  ⟨rfl, (spec_C7_ranking_stability mr7w "" "" p7w b7w rfl rfl).1,
    (spec_C7_ranking_stability mr7w "" "" p7w b7w rfl rfl).2 0⟩

end CareerFavor
